import Mathlib

/-!
A shallow embedding of `src/ipfsd-daemon.js` (the `Daemon` lifecycle controller of
js-ipfsd-ctl) together with proofs about its init/start/stop/cleanup/pid behaviour.

Strings are `List Char`; JavaScript promises that may reject are `Except`;
the asynchronous environment (subprocess output chunks, exit timing, the
external `./utils` helpers `checkForRunningApi` / `repoExists` / `tmpDir` /
`defaultRepo`, which live outside the embedded file) is passed in explicitly
as oracle parameters.
-/

deriving instance DecidableEq for Except

namespace IpfsdCtl

abbrev Str := List Char

/-- JavaScript whitespace for `String.prototype.trim` (the characters relevant
here: space, tab, newline, carriage return, vertical tab, form feed). -/
def jsWhitespace (c : Char) : Bool :=
  c == ' ' || c == '\t' || c == '\n' || c == '\r' || c == Char.ofNat 11 || c == Char.ofNat 12

/-- `s.trim()`. -/
def jsTrim (s : Str) : Str :=
  ((s.dropWhile jsWhitespace).reverse.dropWhile jsWhitespace).reverse

/-- Does the pattern `p` occur at the head of `s`? -/
def headMatches : Str → Str → Bool
  | [], _ => true
  | _ :: _, [] => false
  | p :: ps, c :: cs => p == c && headMatches ps cs

/-- Does `pat` occur as a contiguous substring of `s`? -/
def containsSub (pat : Str) : Str → Bool
  | [] => headMatches pat []
  | c :: cs => headMatches pat (c :: cs) || containsSub pat cs

/-- The current line: characters up to the next newline (`.` in a JavaScript
regular expression does not match `\n`). -/
def lineOf (s : Str) : Str := s.takeWhile (fun c => c != '\n')

/-- At this position, does `listening on:? ` match (literal `listening on`,
optional `:`, a space), and if so, what does the trailing `(.*)` capture
(the rest of the line)? -/
def listenHere (r : Str) : Option Str :=
  if headMatches "listening on".data r then
    match r.drop 12 with
    | ':' :: ' ' :: rest => some rest
    | ' ' :: rest => some rest
    | _ => none
  else none

/-- The greedy `.*` of `/API .*listening on:? (.*)/` backtracks from the right,
so the LAST position in the line where `listening on:? ` matches determines
the capture. -/
def lastListen : Str → Option Str
  | [] => none
  | c :: rest =>
    match lastListen rest with
    | some cap => some cap
    | none => listenHere (c :: rest)

/-- JavaScript `s.match(/<marker>.*listening on:? (.*)/)`, returning capture
group 1: the leftmost position where the marker (`"API "` or `"Gateway "`)
matches and the rest of that line contains a `listening on:? ` occurrence. -/
def markerMatch (marker : Str) : Str → Option Str
  | [] => none
  | c :: rest =>
    if headMatches marker (c :: rest) then
      match lastListen (lineOf (List.drop marker.length (c :: rest))) with
      | some cap => some cap
      | none => markerMatch marker rest
    else markerMatch marker rest

def apiMarker : Str := "API ".data

def gwMarker : Str := "Gateway ".data

/-- `output.match(/(?:daemon is running|Daemon is ready)/)` (line 186). -/
def readyMatch (s : Str) : Bool :=
  containsSub "daemon is running".data s || containsSub "Daemon is ready".data s

/-- Result of `multiaddr(addr).nodeAddress()`. -/
structure NodeAddress where
  address : Str
  port : Nat
deriving DecidableEq

/-- Split on `/`. -/
def splitSlash : Str → List Str
  | [] => [[]]
  | c :: rest =>
    let r := splitSlash rest
    if c = '/' then [] :: r
    else
      match r with
      | [] => [[c]]
      | h :: t => (c :: h) :: t

def digitVal (c : Char) : Nat := c.toNat - '0'.toNat

def parseNat (s : Str) : Nat := s.foldl (fun acc c => acc * 10 + digitVal c) 0

/-- Modelled behaviour of the external `multiaddr` library (a dependency, not
part of the embedded file) on `/ip4/<host>/tcp/<port>` addresses:
`multiaddr(addr).nodeAddress()` yields the host text and the numeric port.
The claims only exercise ip4/tcp addresses. -/
def nodeAddress (s : Str) : NodeAddress :=
  match splitSlash s with
  | [[], proto, host, tcpTag, port] =>
    if proto = "ip4".data ∧ tcpTag = "tcp".data then ⟨host, parseNat port⟩ else ⟨[], 0⟩
  | _ => ⟨[], 0⟩

/-- The API client object produced by `this.opts.ipfsHttpModule(addr)` and the
host/port/gateway/peerId fields the controller attaches to it. -/
structure ApiClient where
  addr : Str
  apiHost : Str
  apiPort : Nat
  gatewayHost : Option Str := none
  gatewayPort : Option Nat := none
  peerId : Option Str := none
deriving DecidableEq

/-- Resolved value of a successful `execa` invocation. -/
structure ExecaResult where
  stdout : Str
  stderr : Str
deriving DecidableEq

/-- Rejection value of a failed `execa` invocation: the error object carries the
captured `stdout` and `stderr` alongside its `message`. -/
structure ExecaFailure where
  stdout : Str
  stderr : Str
  message : Str
deriving DecidableEq

/-- `translateError` (lines 21–26): rewrites the error's message to
`` `${err.stdout} \n\n ${err.stderr} \n\n ${err.message} \n\n` `` and returns
(not throws) the error object. -/
def translateError (e : ExecaFailure) : ExecaFailure :=
  { e with
    message :=
      e.stdout ++ " \n\n ".data ++ e.stderr ++ " \n\n ".data ++ e.message ++ " \n\n".data }

/-- `await execa(...).catch(translateError)`: because `translateError` RETURNS
the error object, a rejection is converted into a fulfilment whose value is the
error object itself, from which `{ stdout, stderr }` destructuring then reads
the captured output fields.  The `await` therefore never throws. -/
def catchTranslate (r : Except ExecaFailure ExecaResult) : ExecaResult :=
  match r with
  | .ok v => v
  | .error e => { stdout := (translateError e).stdout, stderr := (translateError e).stderr }

/-- Errors the controller itself can produce. -/
inductive JsError where
  /-- `new Error('No executable specified')` (line 160). -/
  | noExecutable : JsError
  /-- `reject(translateError(err))` (line 194): a composed subprocess error. -/
  | composed : ExecaFailure → JsError
  /-- The `TypeError` from calling `this.api.id()` while `this.api` is null. -/
  | nullApiCall : JsError
  /-- A `p-wait-for` timeout; the argument names the unmet condition. -/
  | timeoutWaiting : Str → JsError
  /-- `new Error('Daemon process is not running.')` (line 292). -/
  | notRunning : JsError
  /-- Combined failure of the go-only config round trips in `init` (the
  `_getConfig` / `_replaceConfig` calls, e.g. a `JSON.parse` throw). -/
  | configStep : JsError
deriving DecidableEq

/-- A spawned OS process handle. -/
structure Subprocess where
  pid : Nat
deriving DecidableEq

/-- The relevant construction options (`ControllerOptions`). `none` models an
absent (`undefined`) option. -/
structure ControllerOpts where
  /-- `opts.ipfsOptions.repo`. -/
  repo : Option Str := none
  /-- `opts.ipfsBin`. -/
  ipfsBin : Option Str := none
  /-- `opts.env` (caller environment overrides). -/
  env : List (Str × Str) := []
  disposable : Bool := false
  test : Bool := false
  /-- Binary-variant tag, `"go"` or `"js"`. -/
  type : Str := []
  /-- `opts.forceKill`; read by `stop` at line 241. -/
  forceKill : Option Bool := none
  /-- `opts.forceKillTimeout`; read by `stop` at line 246. -/
  forceKillTimeout : Nat := 0
deriving DecidableEq

/-- The controller state: the mutable fields of the `Daemon` class, plus two
locals of `start()` lifted into the record so the `readyHandler` steps can be
expressed as state transitions: `output` (the accumulated stdout buffer) and
`scanning` (whether `readyHandler` is still attached to the stdout stream). -/
structure Daemon where
  opts : ControllerOpts
  path : Str
  exec : Option Str
  env : List (Str × Str)
  disposable : Bool
  subprocess : Option Subprocess := none
  initialized : Bool := false
  started : Bool := false
  clean : Bool := true
  apiAddr : Option Str := none
  gatewayAddr : Option Str := none
  api : Option ApiClient := none
  /-- Whether the `subprocess_stop` promise of line 194 is set. -/
  subprocessStop : Bool := false
  output : Str := []
  scanning : Bool := false
deriving DecidableEq

/-- `new Daemon(opts)` (lines 41–55).  `tmpD` and `defaultD` stand for the
results of the external helpers `tmpDir(opts.type)` and
`defaultRepo(opts.type)`; the `||` on line 44 treats an empty repo string as
absent.  The environment is an association list in which later entries
override earlier ones, so the caller's overrides win over `IPFS_PATH`
(`merge({ IPFS_PATH: this.path }, this.opts.env)`). -/
def construct (opts : ControllerOpts) (tmpD defaultD : Str) : Daemon :=
  let fallback := if opts.disposable then tmpD else defaultD
  let path :=
    match opts.repo with
    | some r => if r.isEmpty then fallback else r
    | none => fallback
  { opts := opts
    path := path
    exec := opts.ipfsBin
    env := ("IPFS_PATH".data, path) :: opts.env
    disposable := opts.disposable
    subprocess := none
    initialized := false
    started := false
    clean := true
    apiAddr := none
    gatewayAddr := none
    api := none
    subprocessStop := false
    output := []
    scanning := false }

/-- `_setApi(addr)` (lines 61–66): record the multiaddr and construct a FRESH
API client annotated with the decoded host and port (any gateway or peer-id
annotations on a previous client are discarded with it). -/
def setApi (d : Daemon) (addr : Str) : Daemon :=
  let na := nodeAddress addr
  { d with
    apiAddr := some addr
    api := some { addr := addr, apiHost := na.address, apiPort := na.port } }

/-- `_setGateway(addr)` (lines 72–76): record the gateway multiaddr and annotate
the existing client.  (When `this.api` is null the source would throw at line
74, after the gateway address has already been recorded at line 73; the state
effect on the remaining fields is as here.) -/
def setGateway (d : Daemon) (addr : Str) : Daemon :=
  let na := nodeAddress addr
  { d with
    gatewayAddr := some addr
    api := d.api.map fun c =>
      { c with gatewayHost := some na.address, gatewayPort := some na.port } }

/-- One invocation of `readyHandler` (lines 173–192) on a stdout chunk.  The
`off('data', readyHandler)` detachment of line 189 is modelled by clearing
`scanning`; a chunk arriving after detachment leaves the state unchanged. -/
def readyStep (d : Daemon) (data : Str) : Daemon :=
  if d.scanning then
    let d1 := { d with output := d.output ++ data }
    let apiM := markerMatch apiMarker (jsTrim d1.output)
    let gwM := markerMatch gwMarker (jsTrim d1.output)
    let d2 := match apiM with | some a => setApi d1 a | none => d1
    let d3 := match gwM with | some g => setGateway d2 g | none => d2
    if readyMatch d3.output then { d3 with started := true, scanning := false } else d3
  else d

/-- Successive stdout chunks delivered to `readyHandler`. -/
def processChunks (d : Daemon) : List Str → Daemon
  | [] => d
  | c :: cs => processChunks (readyStep d c) cs

/-- `cleanup()` (lines 136–146).  The returned flag records whether
`fs.remove(this.path)` was invoked. -/
def cleanup (d : Daemon) : Daemon × Bool :=
  if d.clean then (d, false) else ({ d with clean := true }, true)

/-- Outcome of `init()`. -/
structure InitResult where
  state : Daemon
  result : Except JsError Unit
  /-- Whether the one-shot `init` subprocess was spawned. -/
  spawnedInit : Bool
deriving DecidableEq

/-- `init(initOptions)` (lines 84–129).  `repoAlreadyThere` is the result of the
external probe `repoExists(this.path)`; `execaInit` is the outcome of the
one-shot init subprocess; `goConfig` is the combined outcome of the go-only
config round trips (`_getConfig` / `_replaceConfig`, lines 118–123).  The
option merging and `buildInitArgs` (external argument builder) only shape the
subprocess's argument list and are not otherwise observable here. -/
def init (d : Daemon) (repoAlreadyThere : Bool)
    (execaInit : Except ExecaFailure ExecaResult)
    (goConfig : Except JsError Unit) : InitResult :=
  -- this.initialized = await repoExists(this.path)
  if repoAlreadyThere then
    { state := { d with initialized := true, clean := false }
      result := .ok ()
      spawnedInit := false }
  else
    let d0 := { d with initialized := false }
    -- const { stdout, stderr } = await execa(this.exec, args, ...).catch(translateError)
    let _logged := catchTranslate execaInit
    if d.opts.type = "go".data then
      match goConfig with
      | .error e => { state := d0, result := .error e, spawnedInit := true }
      | .ok () =>
        { state := { d0 with clean := false, initialized := true }
          result := .ok ()
          spawnedInit := true }
    else
      { state := { d0 with clean := false, initialized := true }
        result := .ok ()
        spawnedInit := true }

/-- The asynchronous environment of one `start()` call. -/
structure StartEnv where
  /-- Result of the external probe `checkForRunningApi(this.path)` (line 155). -/
  runningApi : Option Str
  /-- Pid of the spawned `daemon` subprocess. -/
  spawnPid : Nat
  /-- The stdout chunks the subprocess emits before it either becomes ready or
  dies. -/
  chunks : List Str
  /-- The rejection value of the subprocess promise when the process dies
  before the ready line is seen. -/
  exitFailure : ExecaFailure
  /-- The `this.api.id()` response. -/
  nodeId : Str
deriving DecidableEq

structure StartResult where
  state : Daemon
  result : Except JsError Unit
deriving DecidableEq

/-- Tail of `start()` (lines 211–215): `this.started = true`, then
`await this.api.id()` and the `peerId` annotation.  When `this.api` is still
null the member call on null throws. -/
def finishStart (d : Daemon) (nodeId : Str) : StartResult :=
  let d1 := { d with started := true }
  match d1.api with
  | none => { state := d1, result := .error .nullApiCall }
  | some c =>
    { state := { d1 with api := some { c with peerId := some nodeId } }
      result := .ok () }

/-- JavaScript falsiness of `this.exec` (`!this.exec`, line 159): absent or
empty string. -/
def jsFalsyStr : Option Str → Bool
  | none => true
  | some x => x.isEmpty

/-- `start()` (lines 153–217).  Attach when a running API is discovered; fail
synchronously when no executable is configured; otherwise spawn, feed the
chunks through `readyHandler`, and either resolve once the ready marker has
matched or — when the chunks end without it, i.e. the process died first —
run the exit observer (lines 195–205) and reject with the translated error
(line 194). -/
def start (d : Daemon) (env : StartEnv) : StartResult :=
  match env.runningApi with
  | some addr => finishStart (setApi d addr) env.nodeId
  | none =>
    if jsFalsyStr d.exec then { state := d, result := .error .noExecutable }
    else
      let d1 :=
        { d with
          subprocess := some ⟨env.spawnPid⟩
          subprocessStop := true
          scanning := true }
      let d2 := processChunks d1 env.chunks
      if d2.scanning then
        -- the process ended before the ready line: exit observer, then rejection
        let d3 := { d2 with started := false, scanning := false }
        let d4 := if d3.disposable then (cleanup d3).1 else d3
        { state := d4, result := .error (.composed (translateError env.exitFailure)) }
      else finishStart d2 env.nodeId

/-- The options object of `stop(options)`.  The spec's shape lists all three
fields; the source reads only `options.timeout` (line 227) and takes the
force-kill settings from the construction options instead. -/
structure StopOptions where
  timeout : Option Nat := none
  forceKill : Option Bool := none
  forceKillTimeout : Option Nat := none
deriving DecidableEq

/-- `options.timeout || 60000`: both `undefined` and `0` are falsy. -/
def timeoutOrDefault : Option Nat → Nat
  | none => 60000
  | some 0 => 60000
  | some t => t

/-- The asynchronous environment of one `stop()` call: when (in ms from the
call) the subprocess exit is observed, and when the automatic disposable
cleanup has finished. -/
structure StopEnv where
  exitDelay : Nat
  cleanDelay : Nat
deriving DecidableEq

/-- Outcome and observable actions of one `stop()` call. -/
structure StopResult where
  state : Daemon
  result : Except JsError Unit
  /-- Disposable branch: `SIGKILL` sent immediately, with no grace period
  (line 239). -/
  sigkillImmediate : Bool
  /-- The delay of the force-kill timer, when one was armed (line 242). -/
  killTimerDelay : Option Nat
  /-- The armed timer elapsed before exit was observed: the warning is printed
  and `SIGKILL` sent (lines 243–245). -/
  forceKillFired : Bool
deriving DecidableEq

/-- `stop(options)` (lines 226–281).  A bounded wait (`p-wait-for`, 100 ms
polling) succeeds exactly when its condition comes true within `timeout`; the
`await this.subprocess_stop` wait of line 254 is unbounded.  Observation of
exit runs the exit observer registered by `start` (setting `started = false`
and, for disposable instances, scheduling `cleanup`, which finishes at
`cleanDelay`). -/
def stop (d : Daemon) (options : StopOptions) (env : StopEnv) : StopResult :=
  let timeout := timeoutOrDefault options.timeout
  if d.started then
    match d.subprocess with
    | some _ =>
      let sigkillImmediate := d.disposable
      let killTimerDelay : Option Nat :=
        if d.disposable then none
        else if d.opts.forceKill = some false then none
        else some d.opts.forceKillTimeout
      let exitOk := d.subprocessStop || decide (env.exitDelay ≤ timeout)
      let forceKillFired :=
        match killTimerDelay with
        | some k => decide (k < env.exitDelay)
        | none => false
      if exitOk then
        let d1 := { d with started := false, subprocessStop := false }
        if d.disposable then
          if env.cleanDelay ≤ timeout then
            { state := { d1 with clean := true }
              result := .ok ()
              sigkillImmediate := sigkillImmediate
              killTimerDelay := killTimerDelay
              forceKillFired := forceKillFired }
          else
            { state := d1
              result := .error (.timeoutWaiting "this.clean".data)
              sigkillImmediate := sigkillImmediate
              killTimerDelay := killTimerDelay
              forceKillFired := forceKillFired }
        else
          { state := d1
            result := .ok ()
            sigkillImmediate := sigkillImmediate
            killTimerDelay := killTimerDelay
            forceKillFired := forceKillFired }
      else
        { state := d
          result := .error (.timeoutWaiting "!this.started".data)
          sigkillImmediate := sigkillImmediate
          killTimerDelay := killTimerDelay
          forceKillFired := forceKillFired }
    | none =>
      -- attached mode: await this.api.stop(), then this.started = false
      { state := { d with started := false }
        result := .ok ()
        sigkillImmediate := false
        killTimerDelay := none
        forceKillFired := false }
  else
    { state := d
      result := .ok ()
      sigkillImmediate := false
      killTimerDelay := none
      forceKillFired := false }

/-- `pid()` (lines 288–293). -/
def pid (d : Daemon) : Except JsError Nat :=
  match d.subprocess with
  | some p => .ok p.pid
  | none => .error .notRunning

/-! ### Concrete instances used by witnesses and counterexamples -/

def optsJs : ControllerOpts :=
  { repo := some "/tmp/repo1".data
    ipfsBin := some "/usr/local/bin/jsipfs".data
    type := "js".data }

def dJs : Daemon := construct optsJs "/tmp/tmpdir".data "/root/.jsipfs".data

def initFailure : ExecaFailure :=
  { stdout := "some stdout".data
    stderr := "some stderr".data
    message := "Command failed with exit code 1".data }

def dNoExec : Daemon :=
  construct { optsJs with ipfsBin := none } "/tmp/t".data "/tmp/d".data

def envNoExec : StartEnv :=
  { runningApi := none, spawnPid := 0, chunks := [], exitFailure := ⟨[], [], []⟩
    nodeId := [] }

def optsDisp : ControllerOpts := { optsJs with disposable := true }

def dDisp : Daemon :=
  { construct optsDisp "/tmp/t".data "/tmp/d".data with
    started := true, subprocess := some ⟨9⟩, subprocessStop := true, clean := false }

def optsND : ControllerOpts := { optsJs with forceKill := none, forceKillTimeout := 5000 }

def dND : Daemon :=
  { construct optsND "/tmp/t".data "/tmp/d".data with
    started := true, subprocess := some ⟨42⟩, subprocessStop := true }

def stopOptsC2 : StopOptions :=
  { timeout := none, forceKill := some false, forceKillTimeout := some 1234 }

def envReadyOnly : StartEnv :=
  { runningApi := none, spawnPid := 3, chunks := ["daemon is running\n".data]
    exitFailure := ⟨[], [], []⟩, nodeId := "QmPeer".data }

def optsC7 : ControllerOpts :=
  { repo := some "/tmp/repo7".data, ipfsBin := some "/usr/bin/ipfs".data
    type := "go".data }

def dC7 : Daemon := construct optsC7 "/tmp/t7".data "/tmp/d7".data

def envC7 : StartEnv :=
  { runningApi := none, spawnPid := 7
    chunks := ["API server listening on: /ip4/127.0.0.1/tcp/5001\n".data,
               "daemon is running\n".data]
    exitFailure := ⟨[], [], []⟩, nodeId := "QmPeerId".data }

/-- The same scenario output, for the C3 witness. -/
def envApiReady : StartEnv :=
  { runningApi := none, spawnPid := 5
    chunks := ["API server listening on: /ip4/127.0.0.1/tcp/5001\n".data,
               "daemon is running\n".data]
    exitFailure := ⟨[], [], []⟩, nodeId := "QmPeer2".data }

/-- A scanning daemon holding a partial address line and a previously recorded
address, for the C5 witness. -/
def dScan : Daemon :=
  { dJs with scanning := true, output := "API server listening on".data
             apiAddr := some "/old".data }

/-! ### Helper lemmas -/

theorem readyStep_not_scanning (d : Daemon) (c : Str) (h : d.scanning = false) :
    readyStep d c = d := by
  unfold readyStep
  simp [h]

theorem processChunks_not_scanning (d : Daemon) (cs : List Str) (h : d.scanning = false) :
    processChunks d cs = d := by
  induction cs with
  | nil => rfl
  | cons c cs ih => rw [processChunks, readyStep_not_scanning d c h]; exact ih

/-- `readyHandler` only touches the detector-related fields. -/
theorem readyStep_frame (d : Daemon) (c : Str) :
    (readyStep d c).subprocess = d.subprocess
    ∧ (readyStep d c).clean = d.clean
    ∧ (readyStep d c).subprocessStop = d.subprocessStop
    ∧ (readyStep d c).initialized = d.initialized
    ∧ (readyStep d c).disposable = d.disposable
    ∧ (readyStep d c).opts = d.opts := by
  unfold readyStep
  repeat' split <;> simp_all [setApi, setGateway]

theorem processChunks_frame (d : Daemon) (cs : List Str) :
    (processChunks d cs).subprocess = d.subprocess
    ∧ (processChunks d cs).clean = d.clean
    ∧ (processChunks d cs).subprocessStop = d.subprocessStop
    ∧ (processChunks d cs).initialized = d.initialized
    ∧ (processChunks d cs).disposable = d.disposable
    ∧ (processChunks d cs).opts = d.opts := by
  induction cs generalizing d with
  | nil => exact ⟨rfl, rfl, rfl, rfl, rfl, rfl⟩
  | cons c cs ih =>
    have h1 := readyStep_frame d c
    have h2 := ih (readyStep d c)
    rw [processChunks]
    exact ⟨h2.1.trans h1.1, h2.2.1.trans h1.2.1, h2.2.2.1.trans h1.2.2.1,
      h2.2.2.2.1.trans h1.2.2.2.1, h2.2.2.2.2.1.trans h1.2.2.2.2.1,
      h2.2.2.2.2.2.trans h1.2.2.2.2.2⟩

theorem finishStart_frame (d : Daemon) (n : Str) :
    (finishStart d n).state.output = d.output
    ∧ (finishStart d n).state.api.isSome = d.api.isSome
    ∧ (finishStart d n).state.started = true
    ∧ (finishStart d n).state.clean = d.clean
    ∧ (finishStart d n).state.subprocess = d.subprocess := by
  unfold finishStart
  cases h : d.api <;> simp [h]

/-- Detector invariant: if the accumulated buffer matches the API rule, the
client has been constructed.  One `readyHandler` step preserves it (when the
grown buffer matches, `_setApi` has just run; when it does not, the
hypothesis of the invariant is false at the new state). -/
theorem readyStep_api_inv (d : Daemon) (c : Str)
    (h : markerMatch apiMarker (jsTrim d.output) = none ∨ d.api.isSome = true) :
    markerMatch apiMarker (jsTrim (readyStep d c).output) = none
    ∨ (readyStep d c).api.isSome = true := by
  unfold readyStep
  split
  · cases hm : markerMatch apiMarker (jsTrim (d.output ++ c)) with
    | some a =>
      right
      cases hg : markerMatch gwMarker (jsTrim (d.output ++ c)) <;>
        simp only [hm, hg, setApi, setGateway] <;> split <;> simp
    | none =>
      left
      cases hg : markerMatch gwMarker (jsTrim (d.output ++ c)) <;>
        simp only [hm, hg, setApi, setGateway] <;> split <;> simp_all
  · exact h

theorem processChunks_api_inv (d : Daemon) (cs : List Str)
    (h : markerMatch apiMarker (jsTrim d.output) = none ∨ d.api.isSome = true) :
    markerMatch apiMarker (jsTrim (processChunks d cs).output) = none
    ∨ (processChunks d cs).api.isSome = true := by
  induction cs generalizing d with
  | nil => exact h
  | cons c cs ih => rw [processChunks]; exact ih _ (readyStep_api_inv d c h)

/-! ### Claims -/

/-- C1 (code bug evidence): a failing one-shot init subprocess does NOT make
`init()` reject.  `translateError` composes the diagnostic message in the
claimed order (stdout, then stderr, then the original description), but it
RETURNS the error object, so `.catch(translateError)` converts the rejection
into a fulfilment: `init()` resolves, and even proceeds to mark the
controller initialized. -/
theorem init_failure_swallowed :
    (init dJs false (.error initFailure) (.ok ())).result = .ok ()
    ∧ (init dJs false (.error initFailure) (.ok ())).state.initialized = true
    ∧ (init dJs false (.error initFailure) (.ok ())).state.clean = false
    ∧ (translateError initFailure).message =
        initFailure.stdout ++ " \n\n ".data ++ initFailure.stderr ++ " \n\n ".data
          ++ initFailure.message ++ " \n\n".data := by
  decide

/-- C6: when the repository path already holds initialized state, `init()`
sets `initialized := true` and `clean := false`, spawns no subprocess, and
leaves every other field of the controller unchanged — so a second `init()`
on the same (now existing) repository path again leaves `initialized = true`,
`clean = false`, and spawns nothing. -/
theorem init_idempotent_short_circuit (d : Daemon)
    (execaInit : Except ExecaFailure ExecaResult) (goConfig : Except JsError Unit) :
    init d true execaInit goConfig =
      { state := { d with initialized := true, clean := false }
        result := .ok ()
        spawnedInit := false } := rfl

/-- C8: with no running daemon discovered and no executable configured,
`start()` fails with the distinct configuration error (`noExecutable`, not a
composed subprocess error), synchronously: the returned state is the input
state unchanged, so in particular no process was spawned. -/
theorem start_without_exec_config_error (d : Daemon) (env : StartEnv)
    (h1 : env.runningApi = none) (h2 : d.exec = none) :
    start d env = { state := d, result := .error .noExecutable }
    ∧ ∀ e, JsError.noExecutable ≠ JsError.composed e := by
  refine ⟨?_, fun e h => by cases h⟩
  simp [start, h1, h2, jsFalsyStr]

theorem start_without_exec_config_error_witness :
    start dNoExec envNoExec = { state := dNoExec, result := .error .noExecutable } :=
  (start_without_exec_config_error dNoExec envNoExec rfl rfl).1

/-- C9: `pid()` fails with the not-running error exactly when the subprocess
handle is absent; `stop`, `cleanup` and `init` never change the handle and
`start` never resets it to null, so after the managed process has exited
(e.g. after `stop()`) `pid()` still resolves with the exited process's id. -/
theorem pid_error_iff_never_spawned :
    (∀ d : Daemon, pid d = .error .notRunning ↔ d.subprocess = none)
    ∧ (∀ (d : Daemon) (p : Subprocess), d.subprocess = some p → pid d = .ok p.pid)
    ∧ (∀ (d : Daemon) (options : StopOptions) (env : StopEnv),
        (stop d options env).state.subprocess = d.subprocess)
    ∧ (∀ d : Daemon, (cleanup d).1.subprocess = d.subprocess)
    ∧ (∀ (d : Daemon) (r : Bool) (ei : Except ExecaFailure ExecaResult)
        (gc : Except JsError Unit), (init d r ei gc).state.subprocess = d.subprocess)
    ∧ (∀ (d : Daemon) (env : StartEnv),
        d.subprocess ≠ none → (start d env).state.subprocess ≠ none) := by
  refine ⟨?_, ?_, ?_, ?_, ?_, ?_⟩
  · intro d; cases h : d.subprocess <;> simp [pid, h]
  · intro d p h; simp [pid, h]
  · intro d options env
    simp only [stop]
    repeat' split
    all_goals rfl
  · intro d; unfold cleanup; split <;> rfl
  · intro d r ei gc
    simp only [init]
    repeat' split
    all_goals rfl
  · intro d env h
    simp only [start]
    split
    · rw [(finishStart_frame _ _).2.2.2.2]; exact h
    · split
      · exact h
      · have hp := (processChunks_frame
          { d with subprocess := some ⟨env.spawnPid⟩, subprocessStop := true,
                   scanning := true } env.chunks).1
        split
        · simp only [cleanup]
          repeat' split
          all_goals simp_all
        · rw [(finishStart_frame _ _).2.2.2.2]
          simp_all

theorem pid_error_iff_never_spawned_witness :
    pid dJs = .error .notRunning
    ∧ pid (stop dND {} { exitDelay := 0, cleanDelay := 0 }).state = .ok 42 :=
  ⟨(pid_error_iff_never_spawned.1 dJs).mpr rfl,
   pid_error_iff_never_spawned.2.1 (stop dND {} { exitDelay := 0, cleanDelay := 0 }).state
     ⟨42⟩ ((pid_error_iff_never_spawned.2.2.1 dND {} { exitDelay := 0, cleanDelay := 0 }).trans rfl)⟩

/-- C10: a freshly constructed controller has `clean = true`; `start` and
`stop` never set `clean` to false (only `init` does); and on a controller
with `clean = true` — in particular one on which `init()` has never run —
`cleanup()` performs no directory removal and leaves the state unchanged. -/
theorem clean_only_init_clears :
    (∀ (opts : ControllerOpts) (tmpD defaultD : Str),
        (construct opts tmpD defaultD).clean = true)
    ∧ (∀ (d : Daemon) (env : StartEnv), d.clean = true → (start d env).state.clean = true)
    ∧ (∀ (d : Daemon) (options : StopOptions) (env : StopEnv),
        d.clean = true → (stop d options env).state.clean = true)
    ∧ (∀ d : Daemon, d.clean = true → cleanup d = (d, false)) := by
  refine ⟨fun _ _ _ => rfl, ?_, ?_, ?_⟩
  · intro d env h
    simp only [start]
    split
    · rw [(finishStart_frame _ _).2.2.2.1]; exact h
    · split
      · exact h
      · have hc := (processChunks_frame
          { d with subprocess := some ⟨env.spawnPid⟩, subprocessStop := true,
                   scanning := true } env.chunks).2.1
        split
        · simp only [cleanup]
          repeat' split
          all_goals simp_all
        · rw [(finishStart_frame _ _).2.2.2.1]
          simp_all
  · intro d options env h
    simp only [stop]
    repeat' split
    all_goals first | rfl | simp_all
  · intro d h; simp [cleanup, h]

/-- C5: after each chunk the detector re-applies every rule to the full
accumulated buffer: an API (resp. gateway) match against the grown buffer
overwrites the recorded address whatever its previous value was; scanning
continues exactly while the ready rule has not matched the full buffer; and
once scanning has stopped, subsequent chunks are not scanned and record
nothing (the state, addresses included, is frozen). -/
theorem detector_rescan_overwrite_freeze :
    (∀ (d : Daemon) (c : Str), d.scanning = true →
        (readyStep d c).output = d.output ++ c)
    ∧ (∀ (d : Daemon) (c a : Str), d.scanning = true →
        markerMatch apiMarker (jsTrim (d.output ++ c)) = some a →
        (readyStep d c).apiAddr = some a)
    ∧ (∀ (d : Daemon) (c g : Str), d.scanning = true →
        markerMatch gwMarker (jsTrim (d.output ++ c)) = some g →
        (readyStep d c).gatewayAddr = some g)
    ∧ (∀ (d : Daemon) (c : Str), d.scanning = true →
        (readyStep d c).scanning = !readyMatch (d.output ++ c))
    ∧ (∀ (d : Daemon) (cs : List Str), d.scanning = false → processChunks d cs = d) := by
  refine ⟨?_, ?_, ?_, ?_, processChunks_not_scanning⟩
  · intro d c h
    simp only [readyStep, h]
    repeat' split
    all_goals simp_all [setApi, setGateway]
  · intro d c a h hm
    simp only [readyStep, h, hm]
    repeat' split
    all_goals simp_all [setApi, setGateway]
  · intro d c g h hm
    simp only [readyStep, h]
    repeat' split
    all_goals simp_all [setApi, setGateway]
  · intro d c h
    simp only [readyStep, h]
    repeat' split
    all_goals simp_all [setApi, setGateway]

theorem detector_rescan_overwrite_freeze_witness :
    (readyStep dScan ": /ip4/1.2.3.4/tcp/1\n".data).apiAddr = some "/ip4/1.2.3.4/tcp/1".data
    ∧ processChunks dJs ["daemon is running".data] = dJs :=
  ⟨detector_rescan_overwrite_freeze.2.1 dScan ": /ip4/1.2.3.4/tcp/1\n".data
      "/ip4/1.2.3.4/tcp/1".data rfl (by decide),
   detector_rescan_overwrite_freeze.2.2.2.2 dJs ["daemon is running".data] rfl⟩

/-- C3 counterexample: run `start()` on a fresh controller whose subprocess
emits the ready phrase but never an API-address line.  The ready path sets
`started = true` while the API client is still null, so the claimed invariant
fails at this reachable state (the subsequent `this.api.id()` call then
throws, but the state keeps `started = true`, `api = null`). -/
theorem started_without_api_client :
    (start dJs envReadyOnly).state.started = true
    ∧ (start dJs envReadyOnly).state.api = none
    ∧ (start dJs envReadyOnly).result = .error .nullApiCall := by decide

/-- C3 amended: `started = true` implies a non-null API client on the attach
path unconditionally, and on the spawned-output path whenever the accumulated
output matches the API-address rule; the ready rule by itself does not
construct the client.  The hypothesis is the invariant at the input state
(it holds for a freshly constructed controller, whose buffer is empty). -/
theorem started_implies_api_amended (d : Daemon) (env : StartEnv)
    (hP : markerMatch apiMarker (jsTrim d.output) = none ∨ d.api.isSome = true) :
    (∀ addr, env.runningApi = some addr → (start d env).state.api.isSome = true)
    ∧ ((markerMatch apiMarker (jsTrim (start d env).state.output)).isSome = true →
        (start d env).state.started = true →
        (start d env).state.api.isSome = true) := by
  constructor
  · intro addr ha
    simp only [start, ha]
    rw [(finishStart_frame _ _).2.1]
    simp [setApi]
  · intro hm hst
    revert hm hst
    simp only [start]
    split
    · rw [(finishStart_frame _ _).2.1]
      simp [setApi]
    · split
      · intro hm _
        rcases hP with hP | hP
        · simp [hP] at hm
        · exact hP
      · have hinv := processChunks_api_inv
          { d with subprocess := some ⟨env.spawnPid⟩, subprocessStop := true,
                   scanning := true } env.chunks hP
        split
        · -- the process died before ready: the final state has started = false
          intro hm hst
          exfalso
          revert hst
          simp only [cleanup]
          repeat' split
          all_goals simp_all
        · rw [(finishStart_frame _ _).2.1, (finishStart_frame _ _).1]
          intro hm _
          rcases hinv with hinv | hinv
          · simp [hinv] at hm
          · exact hinv

theorem started_implies_api_amended_witness :
    (start dJs envApiReady).state.api.isSome = true :=
  (started_implies_api_amended dJs envApiReady (Or.inl rfl)).2 (by decide) (by decide)

/-- C2 counterexample: the caller passes `forceKill: false` (and a 1234 ms
force-kill timeout) in `stop`'s options argument, yet a force-kill timer IS
armed — and its delay is the construction option's 5000 ms, not 1234 ms:
`stop` does not take the force-kill settings from its options argument. -/
theorem stop_options_force_kill_counterexample :
    stopOptsC2.forceKill = some false
    ∧ stopOptsC2.forceKillTimeout = some 1234
    ∧ dND.disposable = false
    ∧ (stop dND stopOptsC2 { exitDelay := 0, cleanDelay := 0 }).killTimerDelay
        = some 5000 := by decide

/-- C2 amended: for a non-disposable instance with a managed process,
`stop` honours the force-kill settings of the controller's CONSTRUCTION
options: with `opts.forceKill === false` no timer is armed, otherwise a timer
of `opts.forceKillTimeout` milliseconds is armed, and it escalates (warning
plus forced kill) exactly when it elapses before process exit is observed. -/
theorem stop_force_kill_from_construction_opts (d : Daemon) (options : StopOptions)
    (env : StopEnv) (hs : d.started = true) (hp : d.subprocess.isSome = true)
    (hd : d.disposable = false) :
    (d.opts.forceKill = some false → (stop d options env).killTimerDelay = none)
    ∧ (d.opts.forceKill ≠ some false →
        (stop d options env).killTimerDelay = some d.opts.forceKillTimeout)
    ∧ ((stop d options env).forceKillFired = true ↔
        ∃ k, (stop d options env).killTimerDelay = some k ∧ k < env.exitDelay) := by
  rcases Option.isSome_iff_exists.mp hp with ⟨p, hp'⟩
  simp only [stop, hs, hp', hd]
  refine ⟨?_, ?_, ?_⟩ <;>
    repeat' split
  all_goals simp_all

theorem stop_force_kill_from_construction_opts_witness :
    (stop dND {} { exitDelay := 6000, cleanDelay := 0 }).killTimerDelay = some 5000
    ∧ (stop dND {} { exitDelay := 6000, cleanDelay := 0 }).forceKillFired = true :=
  have h := stop_force_kill_from_construction_opts dND {}
    { exitDelay := 6000, cleanDelay := 0 } rfl rfl rfl
  ⟨h.2.1 (by decide), h.2.2.mpr ⟨5000, h.2.1 (by decide), by decide⟩⟩

/-- C4: `stop()` on a disposable instance with a managed process sends the
forced-termination signal immediately, arms no grace-period timer, resolves
only with the cleanup flag set, and — once exit has been observed (here via
the `subprocess_stop` promise) — fails with a timeout error when cleanup does
not finish within the timeout bound. -/
theorem stop_disposable_immediate_kill (d : Daemon) (options : StopOptions)
    (env : StopEnv) (hs : d.started = true) (hp : d.subprocess.isSome = true)
    (hd : d.disposable = true) :
    (stop d options env).sigkillImmediate = true
    ∧ (stop d options env).killTimerDelay = none
    ∧ ((stop d options env).result = .ok () → (stop d options env).state.clean = true)
    ∧ (d.subprocessStop = true → timeoutOrDefault options.timeout < env.cleanDelay →
        (stop d options env).result = .error (.timeoutWaiting "this.clean".data)) := by
  rcases Option.isSome_iff_exists.mp hp with ⟨p, hp'⟩
  simp only [stop, hs, hp', hd]
  refine ⟨?_, ?_, ?_, ?_⟩ <;>
    repeat' split
  all_goals simp_all

theorem stop_disposable_immediate_kill_witness :
    (stop dDisp {} { exitDelay := 0, cleanDelay := 70000 }).sigkillImmediate = true
    ∧ (stop dDisp {} { exitDelay := 0, cleanDelay := 70000 }).killTimerDelay = none
    ∧ (stop dDisp {} { exitDelay := 0, cleanDelay := 70000 }).result
        = .error (.timeoutWaiting "this.clean".data) :=
  have h := stop_disposable_immediate_kill dDisp {}
    { exitDelay := 0, cleanDelay := 70000 } rfl rfl rfl
  ⟨h.1, h.2.1, h.2.2.2 rfl (by decide)⟩

/-- C7: with the spawned output `"API server listening on:
/ip4/127.0.0.1/tcp/5001\n"` followed by `"daemon is running\n"`, `start()`
resolves; `started` is true; the recorded `apiAddr` is the matched address
text, which decodes to host `127.0.0.1` and port `5001`; and the API client's
recorded host and port are exactly that host and port. -/
theorem start_scenario_resolves_api :
    (start dC7 envC7).result = .ok ()
    ∧ (start dC7 envC7).state.started = true
    ∧ (start dC7 envC7).state.apiAddr = some "/ip4/127.0.0.1/tcp/5001".data
    ∧ markerMatch apiMarker (jsTrim (start dC7 envC7).state.output)
        = some "/ip4/127.0.0.1/tcp/5001".data
    ∧ (nodeAddress "/ip4/127.0.0.1/tcp/5001".data).address = "127.0.0.1".data
    ∧ (nodeAddress "/ip4/127.0.0.1/tcp/5001".data).port = 5001
    ∧ (start dC7 envC7).state.api.map ApiClient.apiHost = some "127.0.0.1".data
    ∧ (start dC7 envC7).state.api.map ApiClient.apiPort = some 5001 := by decide

theorem clean_only_init_clears_witness :
    (construct optsJs "/tmp/t".data "/tmp/d".data).clean = true
    ∧ (start dJs envNoExec).state.clean = true
    ∧ (stop dJs {} { exitDelay := 0, cleanDelay := 0 }).state.clean = true
    ∧ cleanup dJs = (dJs, false) :=
  ⟨clean_only_init_clears.1 optsJs "/tmp/t".data "/tmp/d".data,
   clean_only_init_clears.2.1 dJs envNoExec rfl,
   clean_only_init_clears.2.2.1 dJs {} { exitDelay := 0, cleanDelay := 0 } rfl,
   clean_only_init_clears.2.2.2 dJs rfl⟩

end IpfsdCtl
